import Mathlib

/-!
Verification development for the ASCOM MCP server's device discovery,
connection-lifecycle and event-streaming core.

The Python sources are embedded shallowly:
* Python dicts with string keys become association lists `Dict` over a JSON-like
  value type `JVal`; `dict.get(k, default)` becomes the `getS`/`getN`/`getB`
  helpers, `dict[k] = v` becomes `Dict.set`.
* `datetime.utcnow()` / `time.time()` become an explicit clock argument `now : Nat`
  passed to each operation that reads the clock.
* Stateful classes become structures with explicit state passing; external
  effects (network probes, client activation, environment variables, the
  persisted-state file contents) are supplied by an `Env` record so that every
  operation is a pure executable function.
* Exceptions become `Except`; an exception type that is caught in the source is
  visibly caught in the model.
-/

/-- `s.lower()`.  (Character-list implementation so that it reduces in the
kernel; `String.toLower` is positional and does not.) -/
def pyLower (s : String) : String :=
  String.mk (s.data.map Char.toLower)

/-- `s.split(c)` for a one-character separator, Python semantics:
`"".split(c) = [""]`, empty fields kept. -/
def splitCharAux (c : Char) : List Char → List Char → List (List Char)
  | [], acc => [acc.reverse]
  | x :: xs, acc =>
      if x = c then acc.reverse :: splitCharAux c xs []
      else splitCharAux c xs (x :: acc)

/-- `s.split(c)` for a one-character separator. -/
def pySplit (s : String) (c : Char) : List String :=
  (splitCharAux c s.data []).map String.mk

/-- `s.strip()`. -/
def pyStrip (s : String) : String :=
  String.mk (((s.data.dropWhile Char.isWhitespace).reverse.dropWhile Char.isWhitespace).reverse)

/-- `s.replace(a, b)` for one-character patterns. -/
def pyReplaceChar (s : String) (a b : Char) : String :=
  String.mk (s.data.map (fun c => if c = a then b else c))

/-- `int(s)` on a nonnegative decimal literal; `none` models `ValueError`.
(Python `int` also accepts signs and surrounding whitespace; the sources only
ever feed it raw port / device-number fields.) -/
def pyToNat? (s : String) : Option Nat :=
  if s.data ≠ [] ∧ s.data.all Char.isDigit then
    some (s.data.foldl (fun n c => n * 10 + (c.toNat - 48)) 0)
  else none

/-- `s.title()`: uppercase every cased character that follows a non-cased
character, lowercase the rest (ASCII behaviour, which is all the sources use). -/
def pyTitle (s : String) : String :=
  String.mk ((s.data.foldl
    (fun (st : List Char × Bool) c =>
      let (out, prevAlpha) := st
      if c.isAlpha then ((if prevAlpha then c.toLower else c.toUpper) :: out, true)
      else (c :: out, false))
    ([], false)).1.reverse)

/-- JSON-like values stored in Python dicts (`device_data`, event payloads). -/
inductive JVal where
  | s (v : String)
  | n (v : Nat)
  | b (v : Bool)
  | nullv
  | obj (fields : List (String × JVal))

/-- A Python string-keyed dict, as an insertion-ordered association list. -/
def Dict := List (String × JVal)

/-- `d.get(k)` (Python returns `None` when absent → `Option`). -/
def Dict.get? : Dict → String → Option JVal
  | [], _ => none
  | (k, v) :: rest, key => if k = key then some v else Dict.get? rest key

/-- `d.get(k, default)` for string-valued fields. -/
def Dict.getS (d : Dict) (k : String) (default : String) : String :=
  match d.get? k with
  | some (.s v) => v
  | _ => default

/-- `d.get(k, default)` for integer-valued fields. -/
def Dict.getN (d : Dict) (k : String) (default : Nat) : Nat :=
  match d.get? k with
  | some (.n v) => v
  | _ => default

/-- `d.get(k, default)` for boolean-valued fields. -/
def Dict.getB (d : Dict) (k : String) (default : Bool) : Bool :=
  match d.get? k with
  | some (.b v) => v
  | _ => default

/-- `d[k] = v`: update in place when the key exists (keeping its position,
as Python dicts do), else append. -/
def Dict.set : Dict → String → JVal → Dict
  | [], k, v => [(k, v)]
  | (k', v') :: rest, k, v =>
      if k' = k then (k, v) :: rest else (k', v') :: Dict.set rest k v

/-- Insertion-ordered association-list update, modelling `pydict[key] = value`
for the string-keyed tables of the device manager. -/
def updAssoc {α : Type} : List (String × α) → String → α → List (String × α)
  | [], k, v => [(k, v)]
  | (k', v') :: rest, k, v =>
      if k' = k then (k, v) :: rest else (k', v') :: updAssoc rest k v

/-- Association-list lookup, modelling `pydict[key]` / `key in pydict`. -/
def lookupAssoc {α : Type} : List (String × α) → String → Option α
  | [], _ => none
  | (k, v) :: rest, key => if k = key then some v else lookupAssoc rest key

/-- `del pydict[key]`.  (Removes every binding of the key; a Python dict never
holds two bindings of one key, so on the lists actually built by the model —
always through `updAssoc` — this is exactly `del`.) -/
def eraseKey {α : Type} : List (String × α) → String → List (String × α)
  | [], _ => []
  | (k, v) :: rest, key =>
      if k = key then eraseKey rest key else (k, v) :: eraseKey rest key

/-- `DeviceInfo.__init__` (manager.py:33-45): fields extracted from the raw
`device_data` dict, with the source's defaults, plus the derived
`id = f"{type.lower()}_{number}"`.  Note that the constructor never reads a
`discovered_at` key; the raw dict is retained in `data` but `to_dict` does not
read it back. -/
structure DeviceInfo where
  data : Dict
  type : String
  number : Nat
  name : String
  unique_id : String
  host : String
  port : Nat
  api_version : Nat
  is_simulator : Bool
  id : String

/-- `DeviceInfo(device_data)` (manager.py:33-45). -/
def DeviceInfo.ofData (device_data : Dict) : DeviceInfo :=
  let type := device_data.getS "DeviceType" "Unknown"
  let number := device_data.getN "DeviceNumber" 0
  { data := device_data
    type := type
    number := number
    name := device_data.getS "DeviceName" "Unknown Device"
    unique_id := device_data.getS "UniqueID" (type ++ "_" ++ toString number)
    host := device_data.getS "Host" "localhost"
    port := device_data.getN "Port" 11111
    api_version := device_data.getN "ApiVersion" 1
    is_simulator := device_data.getB "IsSimulator" false
    id := pyLower type ++ "_" ++ toString number }

/-- `DeviceInfo.to_dict` (manager.py:47-60).  `now` is the value of
`datetime.utcnow()` at the moment of this call: the source stamps
`"discovered_at": datetime.utcnow().isoformat() + "Z"` afresh on every
serialization. -/
def DeviceInfo.to_dict (info : DeviceInfo) (now : Nat) : Dict :=
  [("id", .s info.id),
   ("name", .s info.name),
   ("type", .s info.type),
   ("number", .n info.number),
   ("unique_id", .s info.unique_id),
   ("host", .s info.host),
   ("port", .n info.port),
   ("api_version", .n info.api_version),
   ("discovered_at", .n now),
   ("connection_url", .s ("http://" ++ info.host ++ ":" ++ toString info.port ++ "/api/v1"))]

/-- `DeviceStatePersistence.merge_devices` (state_persistence.py:93-122).
Both `device.to_dict()` and `existing_device.to_dict()` are called at merge
time, so they share the clock value `now`. -/
def merge_devices (existing nw : List DeviceInfo) (now : Nat) : List DeviceInfo :=
  let device_map : List (String × DeviceInfo) :=
    existing.foldl (fun m device => updAssoc m device.id device) []
  let device_map :=
    nw.foldl (fun m device =>
      match lookupAssoc m device.id with
      | some existing_device =>
          let device_data :=
            (device.to_dict now).set "discovered_at"
              (match (existing_device.to_dict now).get? "discovered_at" with
               | some v => v
               | none => JVal.nullv)
          updAssoc m device.id (DeviceInfo.ofData device_data)
      | none => m ++ [(device.id, device)]) device_map
  device_map.map Prod.snd

/-- Raw discovery data for a sample device, as the management API would return it. -/
def sampleDeviceData : Dict :=
  [("DeviceType", .s "Telescope"),
   ("DeviceNumber", .n 0),
   ("DeviceName", .s "Seestar S50"),
   ("Host", .s "192.168.1.100"),
   ("Port", .n 5555)]

/-- The sample device as a `DeviceInfo`. -/
def sampleDevice : DeviceInfo := DeviceInfo.ofData sampleDeviceData

/-- The sample device rediscovered later at a new host/port. -/
def sampleDeviceMoved : DeviceInfo :=
  DeviceInfo.ofData (sampleDeviceData.set "Host" (.s "192.168.1.200"))

/-- C1: FAILS on the code (code bug).  The spec and the merge helper's own
comment ("Keep discovered_at from existing") intend the original
`discovered_at` to survive rediscovery, but `DeviceInfo.to_dict` regenerates
`discovered_at` from the current clock on every call and never reads the
stored value back, so serializing the same `DeviceInfo` at two different times
yields two different `discovered_at` values, and the value `merge_devices`
splices in is discarded by the next serialization (evaluated here at the
failing input: the sample device serialized at times 100 and 200, and a merge
performed at time 100 then serialized at time 200). -/
theorem c1_discovered_at_regenerated :
    (sampleDevice.to_dict 100).get? "discovered_at" = some (.n 100) ∧
    (sampleDevice.to_dict 200).get? "discovered_at" = some (.n 200) ∧
    JVal.n 100 ≠ JVal.n 200 ∧
    ((merge_devices [sampleDevice] [sampleDeviceMoved] 100).map
        (fun d => (d.to_dict 200).get? "discovered_at")) = [some (.n 200)] := by
  refine ⟨by rfl, by rfl, ?_, by rfl⟩
  intro h
  exact absurd (by injection h) (by decide)

/-- One standardized event, as built by `EventStreamManager.add_event`
(event_stream.py:59-66).  `timestamp` is the `time.time()` clock value at the
moment of the call (the derived `"datetime"` string is the same clock rendered
as ISO text and is subsumed by `timestamp` in this model). -/
structure StdEvent where
  timestamp : Nat
  device_id : String
  event_type : String
  data : Dict

/-- A live subscriber queue (`asyncio.Queue(maxsize=queue_size)`).  `maxsize = 0`
means unbounded, as in asyncio.  `broken` marks a queue whose `put_nowait`
raises something other than `QueueFull` (closed/broken), which `add_event`
catches and prunes. -/
structure SubQueue where
  qid : Nat
  maxsize : Nat
  items : List StdEvent
  broken : Bool

/-- `EventStreamManager` state (event_stream.py:34-44).  `nextQid` is a ghost
counter giving fresh identities to queues created by `subscribe`. -/
structure EventStreamManager where
  buffer_size : Nat
  event_buffers : List (String × List StdEvent)
  subscribers : List (String × List SubQueue)
  device_metadata : List (String × Dict)
  nextQid : Nat

/-- `EventStreamManager(buffer_size)`; the source default is `buffer_size=100`. -/
def EventStreamManager.init (buffer_size : Nat) : EventStreamManager :=
  { buffer_size := buffer_size
    event_buffers := []
    subscribers := []
    device_metadata := []
    nextQid := 0 }

/-- `deque(maxlen=cap).append(e)`: append on the right; once the length would
exceed `cap`, the oldest (leftmost) entries are silently evicted. -/
def pushBounded {α : Type} (cap : Nat) (buf : List α) (e : α) : List α :=
  let b := buf ++ [e]
  b.drop (b.length - cap)

/-- The standardized event dict built inside `add_event` (event_stream.py:60-66). -/
def standardize (device_id : String) (event_data : Dict) (now : Nat) : StdEvent :=
  { timestamp := now
    device_id := device_id
    event_type := event_data.getS "Event" "Unknown"
    data := event_data }

/-- The fan-out loop of `add_event` (event_stream.py:72-84): for each
subscriber queue, `put_nowait`; a full queue is skipped (`QueueFull` caught,
event dropped for that subscriber only); a queue that raises otherwise is
added to `dead_queues` and pruned from the subscriber set afterwards. -/
def fanout (queues : List SubQueue) (e : StdEvent) : List SubQueue :=
  queues.filterMap (fun q =>
    if q.broken then none
    else if 0 < q.maxsize ∧ q.maxsize ≤ q.items.length then some q
    else some { q with items := q.items ++ [e] })

/-- `EventStreamManager.add_event` (event_stream.py:46-90).  Note the
initialization branch: when `device_id` has no buffer yet, the source sets
`self._subscribers[device_id] = set()`, discarding any subscriber set that
`subscribe` had already created for that device. -/
def add_event (m : EventStreamManager) (device_id : String) (event_data : Dict)
    (now : Nat) : EventStreamManager :=
  let m :=
    match lookupAssoc m.event_buffers device_id with
    | some _ => m
    | none =>
        { m with
          event_buffers := updAssoc m.event_buffers device_id []
          subscribers := updAssoc m.subscribers device_id [] }
  let standardized_event := standardize device_id event_data now
  let buf :=
    match lookupAssoc m.event_buffers device_id with
    | some b => b
    | none => []
  let m :=
    { m with
      event_buffers :=
        updAssoc m.event_buffers device_id
          (pushBounded m.buffer_size buf standardized_event) }
  let subs :=
    match lookupAssoc m.subscribers device_id with
    | some s => s
    | none => []
  { m with subscribers := updAssoc m.subscribers device_id (fanout subs standardized_event) }

/-- The snapshot dict returned by `get_events` (event_stream.py:110-141).  The
two return branches carry different key sets, hence the `Option` fields for
the keys only present in the `"active"` branch.  `available_types` is
`list(set(...))` in the source, whose iteration order is unspecified; it is
modelled as first-occurrence order (no claim depends on it). -/
structure GetEventsResult where
  device_id : String
  status : String
  events : List StdEvent
  event_count : Option Nat
  buffer_size : Option Nat
  metadata : Dict
  available_types : Option (List String)

/-- `EventStreamManager.get_events` (event_stream.py:92-141).  The filter
guards reproduce Python truthiness: `if since:` is false for `None` and for
`0`, `if event_types:` is false for `None` and `[]`, and the limit applies
only when `limit` is neither `None` nor `0` and the list is longer than it. -/
def get_events (m : EventStreamManager) (device_id : String) (since : Option Nat)
    (event_types : Option (List String)) (limit : Option Nat) : GetEventsResult :=
  match lookupAssoc m.event_buffers device_id with
  | none =>
      { device_id := device_id
        status := "no_events"
        events := []
        event_count := none
        buffer_size := none
        metadata := (lookupAssoc m.device_metadata device_id).getD []
        available_types := none }
  | some buf =>
      let events := buf
      let events :=
        match since with
        | some s => if s ≠ 0 then events.filter (fun e => s < e.timestamp) else events
        | none => events
      let events :=
        match event_types with
        | some ts => if ts ≠ [] then events.filter (fun e => ts.contains e.event_type) else events
        | none => events
      let events :=
        match limit with
        | some l =>
            if l ≠ 0 ∧ l < events.length then events.drop (events.length - l) else events
        | none => events
      { device_id := device_id
        status := "active"
        events := events
        event_count := some events.length
        buffer_size := some buf.length
        metadata := (lookupAssoc m.device_metadata device_id).getD []
        available_types := some ((buf.map (fun e => e.event_type)).dedup) }

/-- `EventStreamManager.subscribe` (event_stream.py:143-161): create a queue
of capacity `queue_size` (source default 100), add it to the device's
subscriber set (creating the set if absent), and hand the queue back. -/
def subscribe (m : EventStreamManager) (device_id : String) (queue_size : Nat) :
    EventStreamManager × Nat :=
  let queue : SubQueue := { qid := m.nextQid, maxsize := queue_size, items := [], broken := false }
  let subs :=
    match lookupAssoc m.subscribers device_id with
    | some s => s
    | none => []
  ({ m with
      subscribers := updAssoc m.subscribers device_id (subs ++ [queue])
      nextQid := m.nextQid + 1 },
   queue.qid)

/-- `EventStreamManager.unsubscribe` (event_stream.py:163-173). -/
def unsubscribe (m : EventStreamManager) (device_id : String) (qid : Nat) :
    EventStreamManager :=
  match lookupAssoc m.subscribers device_id with
  | none => m
  | some subs =>
      { m with subscribers := updAssoc m.subscribers device_id (subs.filter (fun q => q.qid ≠ qid)) }

/-- `SeestarSSEConsumer._forward_event` (seestar_sse_consumer.py:183-201): the
already-parsed SSE payload `event_data` is wrapped into an "MCP event format"
dict, which is what gets handed to `EventStreamManager.add_event`.  Note the
wrapper stores the tag under the key `"event_type"`, not `"Event"`. -/
def forward_event (device_id : String) (event_data : Dict) : Dict :=
  [("device_id", .s device_id),
   ("event_type", .s (event_data.getS "Event" "Unknown")),
   ("timestamp", match event_data.get? "Timestamp" with | some v => v | none => .nullv),
   ("data", .obj event_data)]

/-- A fresh manager with the source's default capacity. -/
def esm0 : EventStreamManager := EventStreamManager.init 100

/-- A parsed `PiStatus` event payload, as `_parse_event` would produce from the
frame `data: <pre>2025-08-01 10:06:55.8: {"Event": "PiStatus", ...}</pre>`. -/
def piStatusPayload : Dict :=
  [("Event", .s "PiStatus"), ("Timestamp", .s "2025-08-01 10:06:55.8")]

/-- The manager state after one `subscribe("telescope_1")` on a fresh manager. -/
def c2AfterSubscribe : EventStreamManager := (subscribe esm0 "telescope_1" 100).1

/-- ... and after the first `add_event` for that device. -/
def c2AfterEvent : EventStreamManager :=
  add_event c2AfterSubscribe "telescope_1" piStatusPayload 5

/-- C2: FAILS on the code (code bug).  `subscribe`'s own contract is that the
returned queue "will receive new events", and the spec says `add_event`
pushes to every subscriber queue; but when the first event for a device
arrives, `add_event`'s initialization branch overwrites
`self._subscribers[device_id]` with a fresh empty set, so a queue obtained
from `subscribe` before the first event is silently discarded: here, after
`subscribe` the device has exactly one registered queue (qid 0, empty, not
full), yet after `add_event` the subscriber set is empty — the event reached
the ring buffer but no queue — so the promised non-blocking push to `q`
never happened. -/
theorem c2_subscriber_wiped_on_first_event :
    (subscribe esm0 "telescope_1" 100).2 = 0 ∧
    lookupAssoc c2AfterSubscribe.subscribers "telescope_1" =
      some [{ qid := 0, maxsize := 100, items := [], broken := false }] ∧
    lookupAssoc c2AfterEvent.subscribers "telescope_1" = some [] ∧
    lookupAssoc c2AfterEvent.event_buffers "telescope_1" =
      some [standardize "telescope_1" piStatusPayload 5] := by
  exact ⟨by rfl, by rfl, by rfl, by rfl⟩

/-- C4: FAILS on the code (code bug).  `_forward_event` correctly extracts the
tag `T = "PiStatus"` from the parsed envelope, but it forwards a wrapper dict
whose key for the tag is `"event_type"`; `add_event` then looks up
`event_data.get("Event", "Unknown")` on that wrapper, finds no `"Event"` key,
and stores the event with `event_type = "Unknown"` instead of `T` — the
device's free-form tag is lost on every forwarded SSE event. -/
theorem c4_forwarded_event_type_lost :
    piStatusPayload.getS "Event" "Unknown" = "PiStatus" ∧
    (forward_event "telescope_1" piStatusPayload).getS "Event" "Unknown" = "Unknown" ∧
    lookupAssoc (add_event esm0 "telescope_1"
        (forward_event "telescope_1" piStatusPayload) 7).event_buffers "telescope_1" =
      some [{ timestamp := 7
              device_id := "telescope_1"
              event_type := "Unknown"
              data := forward_event "telescope_1" piStatusPayload }] ∧
    "Unknown" ≠ "PiStatus" := by
  exact ⟨by rfl, by rfl, by rfl, by decide⟩

/-- Looking up the key just written finds the written value. -/
theorem lookup_updAssoc_self {α : Type} (m : List (String × α)) (k : String) (v : α) :
    lookupAssoc (updAssoc m k v) k = some v := by
  induction m with
  | nil => simp [updAssoc, lookupAssoc]
  | cons hd tl ih =>
      obtain ⟨k', v'⟩ := hd
      by_cases hkk : k' = k
      · simp [updAssoc, lookupAssoc, hkk]
      · simp [updAssoc, lookupAssoc, hkk, ih]

/-- The event buffer a device currently has (empty when none exists yet). -/
def bufD (m : EventStreamManager) (d : String) : List StdEvent :=
  (lookupAssoc m.event_buffers d).getD []

/-- After `add_event`, the device's buffer exists and is the bounded-append of
what it was before. -/
theorem add_event_lookup (m : EventStreamManager) (d : String) (ed : Dict) (now : Nat) :
    lookupAssoc (add_event m d ed now).event_buffers d =
      some (pushBounded m.buffer_size (bufD m d) (standardize d ed now)) := by
  cases h : lookupAssoc m.event_buffers d with
  | none => simp [add_event, bufD, h, lookup_updAssoc_self]
  | some b => simp [add_event, bufD, h, lookup_updAssoc_self]

/-- `add_event` never changes the configured capacity. -/
theorem add_event_buffer_size (m : EventStreamManager) (d : String) (ed : Dict) (now : Nat) :
    (add_event m d ed now).buffer_size = m.buffer_size := by
  cases h : lookupAssoc m.event_buffers d with
  | none => simp [add_event, h]
  | some b => simp [add_event, h]

/-- Inserting a batch of (payload, clock) events for one device, in order. -/
def addEvents (m : EventStreamManager) (d : String) (es : List (Dict × Nat)) :
    EventStreamManager :=
  es.foldl (fun acc de => add_event acc d de.1 de.2) m

/-- Keeping the rightmost `cap` elements, as `pushBounded` does. -/
theorem drop_sub_eq_reverse_take {α : Type} (cap : Nat) (l : List α) :
    l.drop (l.length - cap) = (l.reverse.take cap).reverse := by
  rw [List.take_reverse, List.reverse_reverse]

/-- Taking `n` of an append is unchanged when the right part was already
truncated at `n`. -/
theorem take_append_take {α : Type} (n : Nat) (u v : List α) :
    (u ++ v.take n).take n = (u ++ v).take n := by
  rw [List.take_append_eq_append_take, List.take_append_eq_append_take, List.take_take,
      Nat.min_eq_left (Nat.sub_le n u.length)]

/-- Evicting to the last `cap` elements, appending, and evicting again is the
same as appending and evicting once. -/
theorem dropRight_absorb {α : Type} (cap : Nat) (l r : List α) :
    (l.drop (l.length - cap) ++ r).drop ((l.drop (l.length - cap) ++ r).length - cap) =
      (l ++ r).drop ((l ++ r).length - cap) := by
  rw [drop_sub_eq_reverse_take cap l,
      drop_sub_eq_reverse_take cap ((l.reverse.take cap).reverse ++ r),
      drop_sub_eq_reverse_take cap (l ++ r)]
  rw [List.reverse_append, List.reverse_reverse, List.reverse_append]
  rw [take_append_take]

/-- Folding bounded appends from a buffer already within capacity keeps
exactly the rightmost `cap` elements of everything ever appended. -/
theorem foldl_pushBounded {α : Type} (cap : Nat) (xs : List α) :
    ∀ b0 : List α, b0.length ≤ cap →
      xs.foldl (pushBounded cap) b0 = (b0 ++ xs).drop ((b0 ++ xs).length - cap) := by
  induction xs with
  | nil =>
      intro b0 hb
      simp [Nat.sub_eq_zero_of_le hb]
  | cons x xs ih =>
      intro b0 hb
      have hlen : (pushBounded cap b0 x).length ≤ cap := by
        simp only [pushBounded, List.length_drop]
        omega
      have hstep := ih (pushBounded cap b0 x) hlen
      calc (x :: xs).foldl (pushBounded cap) b0
          = xs.foldl (pushBounded cap) (pushBounded cap b0 x) := by rfl
        _ = ((b0 ++ [x]).drop ((b0 ++ [x]).length - cap) ++ xs).drop
              (((b0 ++ [x]).drop ((b0 ++ [x]).length - cap) ++ xs).length - cap) := by
              rw [hstep]; rfl
        _ = ((b0 ++ [x]) ++ xs).drop (((b0 ++ [x]) ++ xs).length - cap) :=
              dropRight_absorb cap (b0 ++ [x]) xs
        _ = (b0 ++ x :: xs).drop ((b0 ++ x :: xs).length - cap) := by
              rw [List.append_assoc]; rfl

/-- The buffer after a batch insert is the fold of bounded appends. -/
theorem addEvents_bufD (d : String) (es : List (Dict × Nat)) :
    ∀ m : EventStreamManager,
      bufD (addEvents m d es) d =
        es.foldl (fun b de => pushBounded m.buffer_size b (standardize d de.1 de.2))
          (bufD m d) := by
  induction es with
  | nil => intro m; rfl
  | cons x xs ih =>
      intro m
      have hm : bufD (add_event m d x.1 x.2) d =
          pushBounded m.buffer_size (bufD m d) (standardize d x.1 x.2) := by
        simp [bufD, add_event_lookup]
      have hsz : (add_event m d x.1 x.2).buffer_size = m.buffer_size :=
        add_event_buffer_size m d x.1 x.2
      calc bufD (addEvents m d (x :: xs)) d
          = bufD (addEvents (add_event m d x.1 x.2) d xs) d := by rfl
        _ = xs.foldl (fun b de =>
              pushBounded (add_event m d x.1 x.2).buffer_size b (standardize d de.1 de.2))
              (bufD (add_event m d x.1 x.2) d) := ih (add_event m d x.1 x.2)
        _ = xs.foldl (fun b de => pushBounded m.buffer_size b (standardize d de.1 de.2))
              (pushBounded m.buffer_size (bufD m d) (standardize d x.1 x.2)) := by
              rw [hsz, hm]
        _ = (x :: xs).foldl (fun b de => pushBounded m.buffer_size b (standardize d de.1 de.2))
              (bufD m d) := by rfl

/-- After at least one insert the device's buffer key exists. -/
theorem addEvents_lookup_some (d : String) (es : List (Dict × Nat)) (h : es ≠ []) :
    ∀ m : EventStreamManager,
      lookupAssoc (addEvents m d es).event_buffers d = some (bufD (addEvents m d es) d) := by
  induction es with
  | nil => exact absurd rfl h
  | cons x xs ih =>
      intro m
      cases hxs : xs with
      | nil =>
          have : addEvents m d [x] = add_event m d x.1 x.2 := by rfl
          rw [this, add_event_lookup]
          simp [bufD, add_event_lookup]
      | cons y ys =>
          have hne : xs ≠ [] := by simp [hxs]
          have := ih hne (add_event m d x.1 x.2)
          rw [hxs] at this
          exact this

/-- C3: for every device id and capacity, after inserting `cap + k` events the
buffer holds exactly the last `cap` standardized events — the `k` oldest were
silently evicted — and `get_events` with no filters returns exactly those, in
arrival order.  (The source's default capacity is `buffer_size = 100`; the
theorem is proved for every capacity, the default included.) -/
theorem c3_ring_buffer_bound (cap k : Nat) (d : String) (es : List (Dict × Nat))
    (h : es.length = cap + k) :
    (get_events (addEvents (EventStreamManager.init cap) d es) d none none none).events
      = (es.map (fun de => standardize d de.1 de.2)).drop k ∧
    (get_events (addEvents (EventStreamManager.init cap) d es) d none none none).events.length
      = cap := by
  have hmain : bufD (addEvents (EventStreamManager.init cap) d es) d
      = (es.map (fun de => standardize d de.1 de.2)).drop k := by
    rw [addEvents_bufD]
    have h0 : bufD (EventStreamManager.init cap) d = [] := rfl
    have hbs : (EventStreamManager.init cap).buffer_size = cap := rfl
    rw [h0, hbs]
    rw [show es.foldl (fun b de => pushBounded cap b (standardize d de.1 de.2)) [] =
        (es.map (fun de => standardize d de.1 de.2)).foldl (pushBounded cap) [] from
        (List.foldl_map _ _ _ _).symm]
    rw [foldl_pushBounded cap _ [] (by simp)]
    simp only [List.nil_append, List.length_map, h]
    congr 1
    omega
  by_cases hne : es = []
  · subst hne
    simp only [List.length_nil] at h
    constructor
    · simp [addEvents, get_events, EventStreamManager.init, lookupAssoc]
    · simp [addEvents, get_events, EventStreamManager.init, lookupAssoc]
      omega
  · have hsome := addEvents_lookup_some d es hne (EventStreamManager.init cap)
    rw [hmain] at hsome
    constructor
    · simp [get_events, hsome]
    · simp only [get_events, hsome]
      simp only [List.length_drop, List.length_map, h]
      omega

/-- Three sample events for the ring-buffer witness. -/
def c3Events : List (Dict × Nat) :=
  [([("Event", .s "PiStatus")], 1),
   ([("Event", .s "GotoComplete")], 2),
   ([("Event", .s "Stack")], 3)]

/-- C3 witness: capacity 2, three inserts, first event evicted. -/
theorem c3_ring_buffer_bound_witness :
    (get_events (addEvents (EventStreamManager.init 2) "telescope_1" c3Events)
        "telescope_1" none none none).events
      = (c3Events.map (fun de => standardize "telescope_1" de.1 de.2)).drop 1 ∧
    (get_events (addEvents (EventStreamManager.init 2) "telescope_1" c3Events)
        "telescope_1" none none none).events.length = 2 :=
  c3_ring_buffer_bound 2 1 "telescope_1" c3Events (by rfl)

/-- The exception kinds relevant to the connection path: the manager's own
`DeviceNotFoundError` (manager.py:24), the `ConnectionError` it raises and
tenacity retries (manager.py:316,369,395), `OperationNotSupportedError` from
utils/errors.py:36-39 (never raised by `connect_device`), and tenacity's
`RetryError` wrapper surfaced when the retry budget is exhausted. -/
inductive AscomErr where
  | deviceNotFound (msg : String)
  | connectionError (msg : String)
  | operationNotSupported (msg : String)
  | retryError (last : AscomErr)
deriving DecidableEq

/-- An alpyca device client (`Telescope(base_url, number)`, `Camera(...)`, ...).
`kind` records which constructor built it; `clientId` is a ghost identity
(the value of the construction counter when it was built). -/
structure Client where
  kind : String
  base_url : String
  number : Nat
  clientId : Nat

/-- `ConnectedDevice` (manager.py:63-74). -/
structure ConnectedDevice where
  info : DeviceInfo
  client : Client
  connected_at : Nat
  last_used : Nat

/-- Everything outside the manager's own state: environment variables, the
persisted-state file, configuration, and the outcomes of network probes and
client activations (indexed by ghost attempt counters). -/
structure Env where
  storedDevices : List DeviceInfo
  directDevicesVar : String
  prepopulateKnownVar : String
  skipUdpVar : String
  knownDevices : List (String × Nat × String)
  simulatorDevices : List (String × Nat × String)
  activateOk : Nat → Bool
  deactivateRaises : Nat → Bool
  udpFound : List Dict
  knownProbe : String → Nat → Option (List Dict)
  simReachable : String → Nat → Bool
  now : Nat

/-- `DeviceManager` mutable state (manager.py:87-94): the available and
connected tables and the registered event-callback names, plus ghost
instrumentation counters (resolution runs, client constructions, activation
attempts, callback invocations, deactivation attempts). -/
structure MgrState where
  available : List (String × DeviceInfo)
  connected : List (String × ConnectedDevice)
  event_callbacks : List String
  resolveCount : Nat
  constructCount : Nat
  activationCount : Nat
  callbackRuns : Nat
  deactivations : Nat

/-- The state `DeviceManager.__init__` produces. -/
def managerInitState : MgrState :=
  { available := []
    connected := []
    event_callbacks := []
    resolveCount := 0
    constructCount := 0
    activationCount := 0
    callbackRuns := 0
    deactivations := 0 }

/-- `DeviceResolver.parse_connection_string` (device_resolver.py:19-35),
the regex `^(?:([^@]+)@)?([^:]+):(\d+)$`: the string must be `H:P` with `H`
nonempty and colon-free and `P` nonempty digits; the name group captures the
part of `H` before its first `@` when both that prefix and the remainder are
nonempty, else the whole `H` is the host and the name defaults to
`"Direct Connection"`.  Known model deviation: the source regex accepts a few
ids this model rejects — its name group `[^@]+` may contain colons, so
`"a:b@host:123"` matches with name `"a:b"`, host `"host"`, port 123, while
the model's colon-split sees three fields and declines; the model then falls
through to the later resolution steps, only widening the inputs that end in
`DeviceNotFound`, which no theorem below exercises. -/
def parse_connection_string (device_id : String) : Option (String × String × Nat) :=
  match pySplit device_id ':' with
  | [h, p] =>
      if h ≠ "" ∧ p ≠ "" ∧ p.data.all Char.isDigit then
        let nameHost :=
          match pySplit h '@' with
          | first :: rest =>
              if rest ≠ [] ∧ first ≠ "" ∧ String.intercalate "@" rest ≠ "" then
                (some first, String.intercalate "@" rest)
              else (none, h)
          | [] => (none, h)
        some (nameHost.1.getD "Direct Connection", nameHost.2, (pyToNat? p).getD 0)
      else none
  | _ => none

/-- `DeviceResolver.parse_device_id_type` (device_resolver.py:84-107):
defaults `("Telescope", 1)`; with an underscore, `rsplit("_", 1)` then
`.title()` on the type part, and the number part parsed if it is an int
(keeping the default on `ValueError`). -/
def parse_device_id_type (device_id : String) : String × Nat :=
  if (pySplit device_id '_').length ≥ 2 then
    let parts := pySplit device_id '_'
    (pyTitle (String.intercalate "_" parts.dropLast),
     (pyToNat? ((parts.getLast?).getD "")).getD 1)
  else ("Telescope", 1)

/-- `DeviceResolver.create_device_info_from_connection`
(device_resolver.py:37-82): the passed type/number are overridden from the
device id when it contains an underscore (number only when it parses). -/
def create_device_info_from_connection (device_id name host : String) (port : Nat)
    (device_type : String) (device_number : Nat) : DeviceInfo :=
  let td :=
    if (pySplit device_id '_').length ≥ 2 then
      let parts := pySplit device_id '_'
      (pyTitle (String.intercalate "_" parts.dropLast),
       (pyToNat? ((parts.getLast?).getD "")).getD device_number)
    else (device_type, device_number)
  DeviceInfo.ofData
    [("DeviceType", .s td.1),
     ("DeviceNumber", .n td.2),
     ("DeviceName", .s name),
     ("Host", .s host),
     ("Port", .n port),
     ("UniqueID", .s (device_id ++ "_" ++ host ++ "_" ++ toString port)),
     ("ApiVersion", .n 1)]

/-- Step 4 of `_resolve_device_id` (manager.py:566-586): scan
`ASCOM_DIRECT_DEVICES` (`"id:host:port:name,..."`) for an entry whose first
field is `device_id`.  Known model deviation: the source's `int(parts[2])`
(manager.py:572) is unguarded and raises `ValueError` on a malformed port —
here collapsed to port 0 (`.getD 0`); no theorem below reaches this resolver
step with a malformed port, and the initialization path models the raise
faithfully (`prepopulate_direct_devices`). -/
def findDirectDevice (directDevicesVar device_id : String) :
    Option (String × Nat × String) :=
  if directDevicesVar = "" then none
  else
    (pySplit directDevicesVar ',').findSome? (fun device_spec =>
      let parts := pySplit (pyStrip device_spec) ':'
      if parts.length ≥ 4 ∧ parts.getD 0 "" = device_id then
        some (parts.getD 1 "", (pyToNat? (parts.getD 2 "")).getD 0, parts.getD 3 "")
      else none)

/-- Step 5 of `_resolve_device_id` (manager.py:588-610): match `device_id`
against the id patterns derived from each configured known device.  (Python's
`port - 5554` can go negative for small ports; the model truncates at 0,
which no configured port exercises.) -/
def findKnownDevice (knownDevices : List (String × Nat × String)) (device_id : String) :
    Option (String × Nat × String) :=
  knownDevices.findSome? (fun kd =>
    let possible_ids : List String :=
      ["telescope_" ++ toString (kd.2.1 - 5554),
       "telescope_" ++ toString kd.2.1,
       pyReplaceChar (pyLower kd.2.2) ' ' '_',
       kd.2.2 ++ "@" ++ kd.1 ++ ":" ++ toString kd.2.1]
    if possible_ids.contains device_id then some kd else none)

/-- `DeviceManager._resolve_device_id` (manager.py:516-614): memory cache,
then persisted state (which also populates the memory cache), then direct
connection string, then `ASCOM_DIRECT_DEVICES`, then the known-device config. -/
def resolve_device_id (env : Env) (st : MgrState) (device_id : String) :
    MgrState × Option DeviceInfo :=
  match lookupAssoc st.available device_id with
  | some d => (st, some d)
  | none =>
    match env.storedDevices.find? (fun d => d.id == device_id) with
    | some d => ({ st with available := updAssoc st.available device_id d }, some d)
    | none =>
      match parse_connection_string device_id with
      | some nhp =>
          let td := parse_device_id_type device_id
          (st, some (create_device_info_from_connection device_id nhp.1 nhp.2.1 nhp.2.2
            td.1 td.2))
      | none =>
        match findDirectDevice env.directDevicesVar device_id with
        | some hpn =>
            let td := parse_device_id_type device_id
            (st, some (create_device_info_from_connection device_id (hpn.2.2 ++ " (Direct)")
              hpn.1 hpn.2.1 td.1 td.2))
        | none =>
          match findKnownDevice env.knownDevices device_id with
          | some hpn =>
              let td := parse_device_id_type device_id
              (st, some (create_device_info_from_connection device_id (hpn.2.2 ++ " (Known)")
                hpn.1 hpn.2.1 td.1 td.2))
          | none => (st, none)

/-- The remediation message of `DeviceNotFoundError` (manager.py:337-342). -/
def deviceNotFoundMsg (device_id : String) : String :=
  "Device '" ++ device_id ++ "' not found. Options: 1) Run discover_ascom_devices, " ++
  "2) Use format 'name@host:port' (e.g., 'seestar@192.168.1.100:5555'), " ++
  "3) Add to ASCOM_DIRECT_DEVICES environment variable"

/-- The if/elif type dispatch of `connect_device` (manager.py:360-371): the
client constructor chosen for a lowercased device type, `none` when no branch
matches. -/
def supportedCtor (tylow : String) : Option String :=
  if tylow = "telescope" then some "Telescope"
  else if tylow = "camera" then some "Camera"
  else if tylow = "focuser" then some "Focuser"
  else if tylow = "filterwheel" then some "FilterWheel"
  else none

/-- The `try:` block of `DeviceManager.connect_device` (manager.py:355-395):
type-dispatched client construction, activation, registration in the
connected table, and callback notification.  Any exception inside it is
re-raised as `ConnectionError("Connection failed: {e}")` (manager.py:393-395),
including the deliberate `ConnectionError("Unsupported device type: ...")` of
the dispatch fallback (manager.py:368-371); callback failures are swallowed
(manager.py:388-389).  The `save_devices` persistence calls are external
output and not part of the state. -/
def connect_try_block (env : Env) (st : MgrState) (device_id : String)
    (device_info : DeviceInfo) : MgrState × Except AscomErr ConnectedDevice :=
  match supportedCtor (pyLower device_info.type) with
  | none =>
      (st, .error (.connectionError
        ("Connection failed: Unsupported device type: " ++ device_info.type)))
  | some kind =>
      let client : Client :=
        { kind := kind
          base_url := device_info.host ++ ":" ++ toString device_info.port
          number := device_info.number
          clientId := st.constructCount }
      let st3 := { st with constructCount := st.constructCount + 1 }
      let ok := env.activateOk st3.activationCount
      let st4 := { st3 with activationCount := st3.activationCount + 1 }
      if ok then
        let connected : ConnectedDevice :=
          { info := device_info, client := client
            connected_at := env.now, last_used := env.now }
        let st5 := { st4 with connected := updAssoc st4.connected device_id connected }
        let st6 :=
          if st5.event_callbacks.contains "on_device_connected" then
            { st5 with callbackRuns := st5.callbackRuns + 1 }
          else st5
        (st6, .ok connected)
      else
        (st4, .error (.connectionError "Connection failed: Failed to connect to device"))

/-- The rest of the body of one `connect_device` attempt (manager.py:328-353):
already-connected short-circuit, resolution (ghost-counted), registration into
the available table, then the try block above. -/
def connect_body (env : Env) (st : MgrState) (device_id : String) :
    MgrState × Except AscomErr ConnectedDevice :=
  match lookupAssoc st.connected device_id with
  | some connected => (st, .ok connected)
  | none =>
    let st1 := { st with resolveCount := st.resolveCount + 1 }
    let r := resolve_device_id env st1 device_id
    match r.2 with
    | none => (r.1, .error (.deviceNotFound (deviceNotFoundMsg device_id)))
    | some device_info =>
      let st2 :=
        match lookupAssoc r.1.available device_id with
        | none => { r.1 with available := updAssoc r.1.available device_id device_info }
        | some _ => r.1
      connect_try_block env st2 device_id device_info

/-- What one call of the decorated `connect_device` produced: final state, the
surfaced result, how many attempts ran, and the backoff sleeps taken. -/
structure ConnectResult where
  state : MgrState
  result : Except AscomErr ConnectedDevice
  attempts : Nat
  waits : List Nat

/-- Modelled from the tenacity collaborator (an external library):
`wait_exponential(multiplier=1, min=2, max=10)` computes
`clamp(multiplier * 2 ** attempt_number, min, max)` seconds after the given
failed attempt. -/
def wait_exponential_1_2_10 (attempt_number : Nat) : Nat :=
  max 2 (min (2 ^ attempt_number) 10)

/-- `retry_if_exception_type(ConnectionError)`. -/
def isConnectionError : AscomErr → Bool
  | .connectionError _ => true
  | _ => false

/-- Modelled from the tenacity collaborator: the decorator
`@retry(stop=stop_after_attempt(3), wait=wait_exponential(multiplier=1, min=2,
max=10), retry=retry_if_exception_type(ConnectionError))` on
`DeviceManager.connect_device` (manager.py:313-320) re-runs the *whole*
decorated coroutine (resolution included) on `ConnectionError`, up to three
attempts, sleeping the exponential backoff in between; any other exception is
re-raised immediately; when the third attempt still fails with
`ConnectionError`, tenacity surfaces a `RetryError` wrapping it. -/
def connect_device (env : Env) (st : MgrState) (device_id : String) : ConnectResult :=
  let a1 := connect_body env st device_id
  match a1.2 with
  | .ok cd => ⟨a1.1, .ok cd, 1, []⟩
  | .error e1 =>
    if isConnectionError e1 then
      let w1 := wait_exponential_1_2_10 1
      let a2 := connect_body env a1.1 device_id
      match a2.2 with
      | .ok cd => ⟨a2.1, .ok cd, 2, [w1]⟩
      | .error e2 =>
        if isConnectionError e2 then
          let w2 := wait_exponential_1_2_10 2
          let a3 := connect_body env a2.1 device_id
          match a3.2 with
          | .ok cd => ⟨a3.1, .ok cd, 3, [w1, w2]⟩
          | .error e3 =>
              if isConnectionError e3 then ⟨a3.1, .error (.retryError e3), 3, [w1, w2]⟩
              else ⟨a3.1, .error e3, 3, [w1, w2]⟩
        else ⟨a2.1, .error e2, 2, [w1]⟩
    else ⟨a1.1, .error e1, 1, []⟩

/-- `connected.client.Connected = False` during disconnect, which may raise
(the `n`-th deactivation's outcome comes from the environment). -/
def clientSetConnectedFalse (env : Env) (n : Nat) : Except String Unit :=
  if env.deactivateRaises n then .error "Error during disconnect" else .ok ()

/-- `DeviceManager.disconnect_device` (manager.py:397-415): a no-op (with a
warning log) when the id is not connected; otherwise best-effort client
deactivation with the exception caught and logged (manager.py:410-411), then
unconditional removal from the connected table.  Totality of this function is
the model of "returns without raising". -/
def disconnect_device (env : Env) (st : MgrState) (device_id : String) : MgrState :=
  match lookupAssoc st.connected device_id with
  | none => st
  | some _connected =>
      let st1 := { st with deactivations := st.deactivations + 1 }
      let st2 :=
        match clientSetConnectedFalse env st.deactivations with
        | .ok _ => st1
        | .error _ => st1
      { st2 with connected := eraseKey st2.connected device_id }

/-- `_check_known_devices_async` (manager.py:210-244): query each configured
known device's management endpoint; on HTTP 200 the returned records get the
probed `Host`/`Port` stamped on them; timeouts and errors yield no devices. -/
def check_known_devices (env : Env) : List DeviceInfo :=
  (env.knownDevices.map (fun kd =>
    match env.knownProbe kd.1 kd.2.1 with
    | some records =>
        records.map (fun device_data =>
          DeviceInfo.ofData ((device_data.set "Host" (.s kd.1)).set "Port" (.n kd.2.1)))
    | none => [])).flatten

/-- `_check_simulators_async` (manager.py:246-293): a raw TCP reachability
check per configured simulator; success synthesizes the fixed simulator
descriptor (device number 99, `IsSimulator: true`). -/
def check_simulators (env : Env) : List DeviceInfo :=
  env.simulatorDevices.filterMap (fun sd =>
    if env.simReachable sd.1 sd.2.1 then
      some (DeviceInfo.ofData
        [("DeviceType", .s "Telescope"),
         ("DeviceNumber", .n 99),
         ("DeviceName", .s (sd.2.2 ++ " (Simulator)")),
         ("Host", .s sd.1),
         ("Port", .n sd.2.1),
         ("UniqueID", .s ("simulator_" ++ sd.1 ++ "_" ++ toString sd.2.1)),
         ("IsSimulator", .b true),
         ("ApiVersion", .n 1)])
    else none)

/-- `DeviceManager.discover_devices` (manager.py:130-192): clear the available
table, run the strategies (UDP unless `ASCOM_SKIP_UDP_DISCOVERY` is `"true"`,
known-device probe, simulator probe — `gather` preserves this task order),
then merge first-writer-wins per id, returning only the newly added devices.
`_discover_udp_async` swallows its own failures into `[]`, and the per-result
`isinstance` guards drop strategy exceptions, so each strategy contributes a
plain list. -/
def discover_devices (env : Env) (st : MgrState) : MgrState × List DeviceInfo :=
  let st0 := { st with available := [] }
  let skip_udp := pyLower env.skipUdpVar = "true"
  let results : List (List DeviceInfo) :=
    (if skip_udp then [] else [env.udpFound.map DeviceInfo.ofData]) ++
    [check_known_devices env, check_simulators env]
  results.foldl
    (fun acc devices =>
      devices.foldl
        (fun (acc : MgrState × List DeviceInfo) device =>
          match lookupAssoc acc.1.available device.id with
          | none =>
              ({ acc.1 with available := updAssoc acc.1.available device.id device },
               acc.2 ++ [device])
          | some _ => acc)
        acc)
    (st0, [])

/-- The `ASCOM_DIRECT_DEVICES` loop of `DeviceManager._prepopulate_known_devices`
(manager.py:466-497): each comma-separated spec is stripped and colon-split;
specs with fewer than four fields are silently skipped; otherwise
`port = int(parts[2])` is *unguarded* (manager.py:472), so a malformed port
raises `ValueError` — the entries already processed stay merged (the table is
mutated in place) and the exception propagates, which the `Except` models,
its error value carrying the message and the partially mutated state.  The
device-number extraction from the id, by contrast, guards its `int` and keeps
the default on failure (manager.py:481-484, the same logic as
`parse_device_id_type`). -/
def prepopulate_direct_devices :
    List String → MgrState → Except (String × MgrState) MgrState
  | [], st => .ok st
  | device_spec :: rest, st =>
      let parts := pySplit (pyStrip device_spec) ':'
      if parts.length ≥ 4 then
        match pyToNat? (parts.getD 2 "") with
        | none =>
            .error ("invalid literal for int() with base 10: " ++ parts.getD 2 "", st)
        | some port =>
            let device_id := parts.getD 0 ""
            let td := parse_device_id_type device_id
            let device_info := DeviceInfo.ofData
              [("DeviceType", .s td.1),
               ("DeviceNumber", .n td.2),
               ("DeviceName", .s (parts.getD 3 "" ++ " (Direct)")),
               ("Host", .s (parts.getD 1 "")),
               ("Port", .n port),
               ("UniqueID", .s ("direct_" ++ parts.getD 1 "" ++ "_" ++ toString port)),
               ("ApiVersion", .n 1)]
            prepopulate_direct_devices rest
              { st with available := updAssoc st.available device_id device_info }
      else prepopulate_direct_devices rest st

/-- `DeviceManager._prepopulate_known_devices` (manager.py:460-514): the
direct-device loop above — run only when `ASCOM_DIRECT_DEVICES` is nonempty,
and able to raise — then, when `ASCOM_PREPOPULATE_KNOWN` is `"true"`, the
configured known devices under `telescope_{port - 5554}`. -/
def prepopulate_known_devices (env : Env) (st : MgrState) :
    Except (String × MgrState) MgrState :=
  match (if env.directDevicesVar = "" then Except.ok st
         else prepopulate_direct_devices (pySplit env.directDevicesVar ',') st) with
  | .error e => .error e
  | .ok st1 =>
      if pyLower env.prepopulateKnownVar = "true" then
        .ok (env.knownDevices.foldl
          (fun s kd =>
            let device_info := DeviceInfo.ofData
              [("DeviceType", .s "Telescope"),
               ("DeviceNumber", .n 1),
               ("DeviceName", .s (kd.2.2 ++ " (Known)")),
               ("Host", .s kd.1),
               ("Port", .n kd.2.1),
               ("UniqueID", .s ("known_" ++ kd.1 ++ "_" ++ toString kd.2.1)),
               ("ApiVersion", .n 1)]
            { s with available := updAssoc s.available ("telescope_" ++ toString (kd.2.1 - 5554)) device_info })
          st1)
      else .ok st1

/-- `DeviceManager.initialize` (manager.py:96-108): load the persisted devices
into the available table, then pre-populate the known/direct devices; a
`ValueError` from a malformed direct-device port propagates out of
`initialize`.  (The aiohttp session is an external resource, not state.) -/
def initializeDeviceManager (env : Env) (st : MgrState) :
    Except (String × MgrState) MgrState :=
  prepopulate_known_devices env
    (env.storedDevices.foldl
      (fun s device => { s with available := updAssoc s.available device.id device }) st)

/-- A Python object holding `DeviceManager` state: `objId` is its identity
(`id(obj)`), `st` its mutable attribute dictionary. -/
structure MgrObj where
  objId : Nat
  st : MgrState

/-- `DeviceManager.__new__` (manager.py:80-85): create the singleton on first
use, return the stored instance afterwards; `freshId` is the identity a newly
allocated object would get. -/
def DeviceManager_new (inst : Option MgrObj) (freshId : Nat) : Option MgrObj × MgrObj :=
  match inst with
  | none =>
      let obj : MgrObj := { objId := freshId, st := managerInitState }
      (some obj, obj)
  | some obj => (some obj, obj)

/-- `DeviceManager.__init__` (manager.py:87-94): unconditionally reset the
tables and callbacks of the object it runs on. -/
def DeviceManager_init (obj : MgrObj) : MgrObj :=
  { obj with st := managerInitState }

/-- `DeviceManager()`: Python calls `__new__` and then always runs `__init__`
on the returned instance; since `cls._instance` aliases that instance, the
stored singleton sees the re-initialization too. -/
def DeviceManager_call (inst : Option MgrObj) (freshId : Nat) : Option MgrObj × MgrObj :=
  let r := DeviceManager_new inst freshId
  let obj := DeviceManager_init r.2
  (some obj, obj)

/-- Erasing a key removes it from the table. -/
theorem lookup_eraseKey_self {α : Type} (m : List (String × α)) (k : String) :
    lookupAssoc (eraseKey m k) k = none := by
  induction m with
  | nil => rfl
  | cons hd tl ih =>
      obtain ⟨k', v⟩ := hd
      by_cases h : k' = k
      · simp [eraseKey, h, ih]
      · simp [eraseKey, lookupAssoc, h, ih]

/-- `_resolve_device_id` never touches the connected table. -/
theorem resolve_connected (env : Env) (st : MgrState) (device_id : String) :
    (resolve_device_id env st device_id).1.connected = st.connected := by
  unfold resolve_device_id
  repeat' split
  all_goals rfl

/-- `_resolve_device_id` never touches the resolution counter. -/
theorem resolve_resolveCount (env : Env) (st : MgrState) (device_id : String) :
    (resolve_device_id env st device_id).1.resolveCount = st.resolveCount := by
  unfold resolve_device_id
  repeat' split
  all_goals rfl

/-- `_resolve_device_id` performs no client construction. -/
theorem resolve_constructCount (env : Env) (st : MgrState) (device_id : String) :
    (resolve_device_id env st device_id).1.constructCount = st.constructCount := by
  unfold resolve_device_id
  repeat' split
  all_goals rfl

/-- The try block does not run resolution. -/
theorem try_block_resolveCount (env : Env) (st : MgrState) (device_id : String)
    (info : DeviceInfo) :
    (connect_try_block env st device_id info).1.resolveCount = st.resolveCount := by
  simp only [connect_try_block]
  repeat' split
  all_goals rfl

/-- When the try block returns a handle, that handle is registered in the
connected table and exactly one client construction happened. -/
theorem try_block_ok (env : Env) (st : MgrState) (device_id : String) (info : DeviceInfo)
    (cd : ConnectedDevice) (h : (connect_try_block env st device_id info).2 = .ok cd) :
    lookupAssoc (connect_try_block env st device_id info).1.connected device_id = some cd ∧
    (connect_try_block env st device_id info).1.constructCount = st.constructCount + 1 := by
  simp only [connect_try_block] at h ⊢
  cases hctor : supportedCtor (pyLower info.type) with
  | none => simp [hctor] at h
  | some kind =>
      simp only [hctor] at h ⊢
      cases hok : env.activateOk st.activationCount with
      | false => simp [hok] at h
      | true =>
          simp only [hok, if_true] at h ⊢
          cases hcb : st.event_callbacks.contains "on_device_connected" with
          | false =>
              simp [hcb] at h ⊢
              subst h
              simp [lookup_updAssoc_self]
          | true =>
              simp [hcb] at h ⊢
              subst h
              simp [lookup_updAssoc_self]

/-- A type outside the four dispatch branches selects no constructor. -/
theorem supportedCtor_eq_none (t : String)
    (h1 : t ≠ "telescope") (h2 : t ≠ "camera") (h3 : t ≠ "focuser")
    (h4 : t ≠ "filterwheel") : supportedCtor t = none := by
  simp [supportedCtor, h1, h2, h3, h4]

/-- An unsupported type makes the try block fail with the wrapped
`ConnectionError`, leaving the state untouched. -/
theorem try_block_unsupported (env : Env) (st : MgrState) (device_id : String)
    (info : DeviceInfo) (h : supportedCtor (pyLower info.type) = none) :
    connect_try_block env st device_id info =
      (st, .error (.connectionError
        ("Connection failed: Unsupported device type: " ++ info.type))) := by
  simp only [connect_try_block, h]

/-- An already-connected id short-circuits one attempt: same state, same handle. -/
theorem connect_body_already (env : Env) (st : MgrState) (device_id : String)
    (cd : ConnectedDevice) (h : lookupAssoc st.connected device_id = some cd) :
    connect_body env st device_id = (st, .ok cd) := by
  simp only [connect_body, h]

/-- A failing attempt implies the id was not in the connected table. -/
theorem connect_body_error_not_connected (env : Env) (st : MgrState) (device_id : String)
    (e : AscomErr) (h : (connect_body env st device_id).2 = .error e) :
    lookupAssoc st.connected device_id = none := by
  cases hc : lookupAssoc st.connected device_id with
  | none => rfl
  | some cd => rw [connect_body_already env st device_id cd hc] at h; simp at h

/-- An attempt on a not-yet-connected id runs resolution exactly once. -/
theorem connect_body_resolveCount (env : Env) (st : MgrState) (device_id : String)
    (hc : lookupAssoc st.connected device_id = none) :
    (connect_body env st device_id).1.resolveCount = st.resolveCount + 1 := by
  simp only [connect_body, hc]
  cases hr : (resolve_device_id env { st with resolveCount := st.resolveCount + 1 }
      device_id).2 with
  | none =>
      simp only [hr]
      rw [resolve_resolveCount]
  | some info =>
      simp only [hr]
      cases ha : lookupAssoc (resolve_device_id env
          { st with resolveCount := st.resolveCount + 1 } device_id).1.available device_id with
      | none =>
          simp only [ha]
          rw [try_block_resolveCount]
          simp [resolve_resolveCount]
      | some _ =>
          simp only [ha]
          rw [try_block_resolveCount, resolve_resolveCount]

/-- A successful attempt leaves the returned handle in the connected table. -/
theorem connect_body_ok_connected (env : Env) (st : MgrState) (device_id : String)
    (cd : ConnectedDevice) (h : (connect_body env st device_id).2 = .ok cd) :
    lookupAssoc (connect_body env st device_id).1.connected device_id = some cd := by
  cases hc : lookupAssoc st.connected device_id with
  | some cd0 =>
      rw [connect_body_already env st device_id cd0 hc] at h ⊢
      simp at h
      subst h
      exact hc
  | none =>
      simp only [connect_body, hc] at h ⊢
      cases hr : (resolve_device_id env { st with resolveCount := st.resolveCount + 1 }
          device_id).2 with
      | none => simp [hr] at h
      | some info =>
          simp only [hr] at h ⊢
          cases ha : lookupAssoc (resolve_device_id env
              { st with resolveCount := st.resolveCount + 1 } device_id).1.available device_id with
          | none =>
              simp only [ha] at h ⊢
              exact (try_block_ok _ _ _ _ _ h).1
          | some _ =>
              simp only [ha] at h ⊢
              exact (try_block_ok _ _ _ _ _ h).1

/-- A successful attempt on a not-yet-connected id constructs exactly one client. -/
theorem connect_body_ok_construct (env : Env) (st : MgrState) (device_id : String)
    (cd : ConnectedDevice) (hc : lookupAssoc st.connected device_id = none)
    (h : (connect_body env st device_id).2 = .ok cd) :
    (connect_body env st device_id).1.constructCount = st.constructCount + 1 := by
  simp only [connect_body, hc] at h ⊢
  cases hr : (resolve_device_id env { st with resolveCount := st.resolveCount + 1 }
      device_id).2 with
  | none => simp [hr] at h
  | some info =>
      simp only [hr] at h ⊢
      cases ha : lookupAssoc (resolve_device_id env
          { st with resolveCount := st.resolveCount + 1 } device_id).1.available device_id with
      | none =>
          simp only [ha] at h ⊢
          rw [(try_block_ok _ _ _ _ _ h).2]
          simp [resolve_constructCount]
      | some _ =>
          simp only [ha] at h ⊢
          rw [(try_block_ok _ _ _ _ _ h).2, resolve_constructCount]

/-- A quiescent environment: nothing persisted or configured, every client
activation succeeds, deactivation never raises, no probe answers. -/
def envQuiet : Env :=
  { storedDevices := []
    directDevicesVar := ""
    prepopulateKnownVar := ""
    skipUdpVar := ""
    knownDevices := []
    simulatorDevices := []
    activateOk := fun _ => true
    deactivateRaises := fun _ => false
    udpFound := []
    knownProbe := fun _ _ => none
    simReachable := fun _ _ => false
    now := 42 }

/-- Discovery data for a device of a type with no client mapping. -/
def rotatorData : Dict :=
  [("DeviceType", .s "Rotator"),
   ("DeviceNumber", .n 0),
   ("DeviceName", .s "Rotator Unit"),
   ("Host", .s "localhost"),
   ("Port", .n 11111)]

/-- The unsupported-type device. -/
def rotatorInfo : DeviceInfo := DeviceInfo.ofData rotatorData

/-- A manager that has the rotator in its available table. -/
def stRotator : MgrState :=
  { managerInitState with available := [("rotator_0", rotatorInfo)] }

/-- One attempt on a resolvable device of unsupported type: the deliberate
`ConnectionError` of the dispatch fallback, wrapped by the outer handler. -/
theorem connect_body_unsupported (env : Env) (st : MgrState) (device_id : String)
    (info : DeviceInfo)
    (hc : lookupAssoc st.connected device_id = none)
    (ha : lookupAssoc st.available device_id = some info)
    (hns : supportedCtor (pyLower info.type) = none) :
    connect_body env st device_id =
      ({ st with resolveCount := st.resolveCount + 1 },
       .error (.connectionError
         ("Connection failed: Unsupported device type: " ++ info.type))) := by
  have hres : resolve_device_id env { st with resolveCount := st.resolveCount + 1 } device_id
      = ({ st with resolveCount := st.resolveCount + 1 }, some info) := by
    unfold resolve_device_id
    rw [show lookupAssoc ({ st with resolveCount := st.resolveCount + 1 } : MgrState).available
        device_id = some info from ha]
  simp only [connect_body, hc, hres, ha]
  rw [try_block_unsupported env _ device_id info hns]

/-- C5 counterexample: with the rotator resolvable, `connect` surfaces (after
three attempts) tenacity's retry-exhaustion error wrapping `ConnectionError`,
not an `OperationNotSupportedError`, and the retry policy ran. -/
theorem c5_counterexample_error_kind :
    (connect_device envQuiet stRotator "rotator_0").result =
      .error (.retryError (.connectionError
        "Connection failed: Unsupported device type: Rotator")) ∧
    (connect_device envQuiet stRotator "rotator_0").attempts = 3 ∧
    (connect_device envQuiet stRotator "rotator_0").result ≠
      .error (.operationNotSupported "Unsupported device type: Rotator") := by
  have h0 : (connect_device envQuiet stRotator "rotator_0").result =
      .error (.retryError (.connectionError
        "Connection failed: Unsupported device type: Rotator")) := by rfl
  refine ⟨h0, by rfl, ?_⟩
  rw [h0]
  simp

/-- C5 as amended: for every resolvable device id whose type (lowercased) is
none of the four dispatch branches, `connect` fails after all 3 retry
attempts (backoff 2s then 4s) with tenacity's retry-exhaustion error wrapping
`ConnectionError("Connection failed: Unsupported device type: {type}")`; no
`UnsupportedOperation` kind is involved, and the retry policy *is* applied
because the dispatch fallback deliberately raises `ConnectionError`. -/
theorem c5_unsupported_type_retried (env : Env) (st : MgrState) (device_id : String)
    (info : DeviceInfo)
    (hc : lookupAssoc st.connected device_id = none)
    (ha : lookupAssoc st.available device_id = some info)
    (h1 : pyLower info.type ≠ "telescope") (h2 : pyLower info.type ≠ "camera")
    (h3 : pyLower info.type ≠ "focuser") (h4 : pyLower info.type ≠ "filterwheel") :
    connect_device env st device_id =
      ⟨{ st with resolveCount := st.resolveCount + 3 },
       .error (.retryError (.connectionError
         ("Connection failed: Unsupported device type: " ++ info.type))),
       3, [2, 4]⟩ := by
  have hns := supportedCtor_eq_none _ h1 h2 h3 h4
  have e1 := connect_body_unsupported env st device_id info hc ha hns
  have e2 := connect_body_unsupported env { st with resolveCount := st.resolveCount + 1 }
    device_id info hc ha hns
  have e3 := connect_body_unsupported env { st with resolveCount := st.resolveCount + 1 + 1 }
    device_id info hc ha hns
  simp only [connect_device, e1, e2, e3, isConnectionError]
  norm_num [wait_exponential_1_2_10]

/-- C5 witness: the rotator scenario instantiating the amended theorem. -/
theorem c5_unsupported_type_retried_witness :
    connect_device envQuiet stRotator "rotator_0" =
      ⟨{ stRotator with resolveCount := stRotator.resolveCount + 3 },
       .error (.retryError (.connectionError
         ("Connection failed: Unsupported device type: " ++ rotatorInfo.type))),
       3, [2, 4]⟩ :=
  c5_unsupported_type_retried envQuiet stRotator "rotator_0" rotatorInfo rfl rfl
    (by decide) (by decide) (by decide) (by decide)

/-- C6 counterexample: during the single `connect("rotator_0")` call the
resolution step ran three times (once per attempt), not once — the retry
decorator wraps the whole body, resolution included. -/
theorem c6_counterexample_resolution_rerun :
    stRotator.resolveCount = 0 ∧
    (connect_device envQuiet stRotator "rotator_0").state.resolveCount = 3 ∧
    (connect_device envQuiet stRotator "rotator_0").attempts = 3 := by
  exact ⟨rfl, by rfl, by rfl⟩

/-- C6 as amended: the retry decorator re-runs the *whole* `connect_device`
body.  (a) A resolution failure (`DeviceNotFound`) is raised immediately:
one attempt, no backoff, resolution ran exactly once.  (b) A `ConnectionError`
is retried up to 3 attempts with backoff waits 2s then 4s (the
`wait_exponential(multiplier=1, min=2, max=10)` values, capped at 10s),
tenacity finally surfacing a retry-exhaustion error wrapping the last
`ConnectionError` — and the resolution step re-ran on every attempt,
3 runs in all (the first attempt caches the device in the available table,
so the re-runs hit the memory cache, but they do run). -/
theorem c6_retry_wraps_whole_body (env : Env) (st : MgrState) (device_id : String) :
    (∀ m, (connect_body env st device_id).2 = .error (.deviceNotFound m) →
      connect_device env st device_id =
        ⟨(connect_body env st device_id).1, .error (.deviceNotFound m), 1, []⟩ ∧
      (connect_body env st device_id).1.resolveCount = st.resolveCount + 1) ∧
    (∀ m1 m2 m3,
      (connect_body env st device_id).2 = .error (.connectionError m1) →
      (connect_body env (connect_body env st device_id).1 device_id).2 =
        .error (.connectionError m2) →
      (connect_body env (connect_body env (connect_body env st device_id).1 device_id).1
          device_id).2 = .error (.connectionError m3) →
      connect_device env st device_id =
        ⟨(connect_body env (connect_body env (connect_body env st device_id).1 device_id).1
            device_id).1,
         .error (.retryError (.connectionError m3)), 3, [2, 4]⟩ ∧
      (connect_body env (connect_body env (connect_body env st device_id).1 device_id).1
          device_id).1.resolveCount = st.resolveCount + 3) := by
  constructor
  · intro m h
    refine ⟨?_, ?_⟩
    · simp [connect_device, h, isConnectionError]
    · exact connect_body_resolveCount env st device_id
        (connect_body_error_not_connected env st device_id _ h)
  · intro m1 m2 m3 h1 h2 h3
    have r1 := connect_body_resolveCount env st device_id
      (connect_body_error_not_connected env st device_id _ h1)
    have r2 := connect_body_resolveCount env _ device_id
      (connect_body_error_not_connected env _ device_id _ h2)
    have r3 := connect_body_resolveCount env _ device_id
      (connect_body_error_not_connected env _ device_id _ h3)
    refine ⟨?_, ?_⟩
    · simp only [connect_device, h1, h2, h3, isConnectionError]
      norm_num [wait_exponential_1_2_10]
    · rw [r3, r2, r1]

/-- C6 witness: (a) an unresolvable id fails immediately with `DeviceNotFound`
and one resolution run; (b) the rotator's `ConnectionError` is retried to
exhaustion with waits 2s and 4s and three resolution runs. -/
theorem c6_retry_wraps_whole_body_witness :
    (connect_device envQuiet managerInitState "nonexistent_device" =
      ⟨(connect_body envQuiet managerInitState "nonexistent_device").1,
       .error (.deviceNotFound (deviceNotFoundMsg "nonexistent_device")), 1, []⟩ ∧
     (connect_body envQuiet managerInitState "nonexistent_device").1.resolveCount =
       managerInitState.resolveCount + 1) ∧
    (connect_device envQuiet stRotator "rotator_0" =
      ⟨(connect_body envQuiet (connect_body envQuiet (connect_body envQuiet stRotator
          "rotator_0").1 "rotator_0").1 "rotator_0").1,
       .error (.retryError (.connectionError
         "Connection failed: Unsupported device type: Rotator")), 3, [2, 4]⟩ ∧
     (connect_body envQuiet (connect_body envQuiet (connect_body envQuiet stRotator
         "rotator_0").1 "rotator_0").1 "rotator_0").1.resolveCount =
       stRotator.resolveCount + 3) :=
  ⟨(c6_retry_wraps_whole_body envQuiet managerInitState "nonexistent_device").1
      (deviceNotFoundMsg "nonexistent_device") (by rfl),
   (c6_retry_wraps_whole_body envQuiet stRotator "rotator_0").2
      "Connection failed: Unsupported device type: Rotator"
      "Connection failed: Unsupported device type: Rotator"
      "Connection failed: Unsupported device type: Rotator"
      (by rfl) (by rfl) (by rfl)⟩

/-- C7: for every environment, state, and device id, after
`disconnect_device` the id is absent from the connected table — including
when the underlying deactivation raises (the environment chooses) and when
the id was never connected — and a disconnect of a not-connected id leaves
the state entirely unchanged (no-op success).  Totality of
`disconnect_device` (it returns a plain state, every exception path caught
inside) is the model of "returns without raising". -/
theorem c7_disconnect_unconditional (env : Env) (st : MgrState) (device_id : String) :
    lookupAssoc (disconnect_device env st device_id).connected device_id = none ∧
    (lookupAssoc st.connected device_id = none → disconnect_device env st device_id = st) := by
  constructor
  · cases h : lookupAssoc st.connected device_id with
    | none => simp [disconnect_device, h]
    | some cd =>
        simp only [disconnect_device, h]
        cases hd : clientSetConnectedFalse env st.deactivations with
        | ok u => simp only [hd]; exact lookup_eraseKey_self _ _
        | error e => simp only [hd]; exact lookup_eraseKey_self _ _
  · intro h
    simp [disconnect_device, h]

/-- A connected telescope client for the disconnect witness. -/
def telClient : Client :=
  { kind := "Telescope", base_url := "localhost:5555", number := 1, clientId := 0 }

/-- Discovery data for a telescope device. -/
def telData : Dict :=
  [("DeviceType", .s "Telescope"),
   ("DeviceNumber", .n 1),
   ("DeviceName", .s "Seestar S50"),
   ("Host", .s "localhost"),
   ("Port", .n 5555)]

/-- The telescope device. -/
def telInfo : DeviceInfo := DeviceInfo.ofData telData

/-- A live handle for it. -/
def telCd : ConnectedDevice :=
  { info := telInfo, client := telClient, connected_at := 42, last_used := 42 }

/-- A manager with the telescope connected. -/
def stTelConnectedOnly : MgrState :=
  { managerInitState with connected := [("telescope_1", telCd)] }

/-- An environment whose client deactivation always raises. -/
def envRaise : Env := { envQuiet with deactivateRaises := fun _ => true }

/-- C7 witness: a connected device whose deactivation raises is still removed,
and disconnecting a never-connected id is a no-op. -/
theorem c7_disconnect_unconditional_witness :
    lookupAssoc (disconnect_device envRaise stTelConnectedOnly "telescope_1").connected
      "telescope_1" = none ∧
    disconnect_device envQuiet managerInitState "telescope_1" = managerInitState :=
  ⟨(c7_disconnect_unconditional envRaise stTelConnectedOnly "telescope_1").1,
   (c7_disconnect_unconditional envQuiet managerInitState "telescope_1").2 rfl⟩

/-- C8: when `connect(id)` returned a handle, a second `connect(id)` without
an intervening disconnect returns the very same handle from the connected
table in one attempt with no backoff and does not change the state at all —
in particular it performs no client construction and no activation — and
(when the first call succeeded on its first attempt from a not-connected
state) the construction across both calls happened exactly once. -/
theorem c8_idempotent_connect (env : Env) (st : MgrState) (device_id : String)
    (st1 : MgrState) (cd : ConnectedDevice) (a : Nat) (w : List Nat)
    (h : connect_device env st device_id = ⟨st1, .ok cd, a, w⟩) :
    connect_device env st1 device_id = ⟨st1, .ok cd, 1, []⟩ ∧
    (connect_device env st1 device_id).state = st1 ∧
    (connect_device env st1 device_id).state.constructCount = st1.constructCount ∧
    (connect_device env st1 device_id).state.activationCount = st1.activationCount ∧
    (a = 1 → lookupAssoc st.connected device_id = none →
      st1.constructCount = st.constructCount + 1) := by
  have key : lookupAssoc st1.connected device_id = some cd ∧
      (a = 1 → lookupAssoc st.connected device_id = none →
        st1.constructCount = st.constructCount + 1) := by
    simp only [connect_device] at h
    rcases hb1 : connect_body env st device_id with ⟨s1, r1⟩
    rw [hb1] at h
    cases r1 with
    | ok cd1 =>
        simp only [ConnectResult.mk.injEq, Except.ok.injEq] at h
        obtain ⟨hs, hr, hA, hW⟩ := h
        subst hs; subst hr
        constructor
        · have := connect_body_ok_connected env st device_id cd1 (by rw [hb1])
          rw [hb1] at this
          exact this
        · intro _ hc
          have := connect_body_ok_construct env st device_id cd1 hc (by rw [hb1])
          rw [hb1] at this
          exact this
    | error e1 =>
        cases he1 : isConnectionError e1 with
        | false => simp [he1] at h
        | true =>
            simp only [he1, if_true] at h
            rcases hb2 : connect_body env s1 device_id with ⟨s2, r2⟩
            rw [hb2] at h
            cases r2 with
            | ok cd2 =>
                simp only [ConnectResult.mk.injEq, Except.ok.injEq] at h
                obtain ⟨hs, hr, hA, hW⟩ := h
                subst hs; subst hr
                constructor
                · have := connect_body_ok_connected env s1 device_id cd2 (by rw [hb2])
                  rw [hb2] at this
                  exact this
                · intro hA1 _
                  omega
            | error e2 =>
                cases he2 : isConnectionError e2 with
                | false => simp [he2] at h
                | true =>
                    simp only [he2, if_true] at h
                    rcases hb3 : connect_body env s2 device_id with ⟨s3, r3⟩
                    rw [hb3] at h
                    cases r3 with
                    | ok cd3 =>
                        simp only [ConnectResult.mk.injEq, Except.ok.injEq] at h
                        obtain ⟨hs, hr, hA, hW⟩ := h
                        subst hs; subst hr
                        constructor
                        · have := connect_body_ok_connected env s2 device_id cd3 (by rw [hb3])
                          rw [hb3] at this
                          exact this
                        · intro hA1 _
                          omega
                    | error e3 =>
                        cases he3 : isConnectionError e3 with
                        | false => simp [he3] at h
                        | true => simp [he3] at h
  have hb := connect_body_already env st1 device_id cd key.1
  have hsecond : connect_device env st1 device_id = ⟨st1, .ok cd, 1, []⟩ := by
    simp only [connect_device, hb]
  exact ⟨hsecond, by rw [hsecond], by rw [hsecond], by rw [hsecond], key.2⟩

/-- A manager with the telescope available but not yet connected. -/
def stTelAvailable : MgrState :=
  { managerInitState with available := [("telescope_1", telInfo)] }

/-- The state after the first successful `connect("telescope_1")`. -/
def stTelAfterConnect : MgrState :=
  { available := [("telescope_1", telInfo)]
    connected := [("telescope_1", telCd)]
    event_callbacks := []
    resolveCount := 1
    constructCount := 1
    activationCount := 1
    callbackRuns := 0
    deactivations := 0 }

/-- C8 witness: the concrete telescope scenario — the second connect returns
the first call's handle unchanged, and construction happened exactly once. -/
theorem c8_idempotent_connect_witness :
    connect_device envQuiet stTelAfterConnect "telescope_1" =
      ⟨stTelAfterConnect, .ok telCd, 1, []⟩ ∧
    stTelAfterConnect.constructCount = stTelAvailable.constructCount + 1 := by
  have h : connect_device envQuiet stTelAvailable "telescope_1" =
      ⟨stTelAfterConnect, .ok telCd, 1, []⟩ := by rfl
  exact ⟨(c8_idempotent_connect envQuiet stTelAvailable "telescope_1" stTelAfterConnect
      telCd 1 [] h).1,
    (c8_idempotent_connect envQuiet stTelAvailable "telescope_1" stTelAfterConnect
      telCd 1 [] h).2.2.2.2 rfl rfl⟩

/-- An environment declaring one direct device. -/
def envDirect : Env :=
  { envQuiet with directDevicesVar := "telescope_1:192.168.1.100:5555:Seestar S50" }

/-- An environment whose direct list has a malformed port before a
well-formed entry. -/
def envDirectBad : Env :=
  { envQuiet with directDevicesVar := "bad_1:h:xx:N,telescope_1:h:5555:S" }

/-- The state `initialize` produces for `envDirect` (it succeeds there). -/
def c9AfterInit : MgrState :=
  match initializeDeviceManager envDirect managerInitState with
  | .ok s => s
  | .error e => e.2

/-- C9 counterexample: the device is declared in the direct-connection
environment list and `initialize` merged it into the available table — yet
after a discovery pass (which clears the table and consults only the
UDP/known-host/simulator strategies) the id is absent: discovery does not
merge the ad hoc environment list.  And the merge is not unconditional
either: with a malformed port earlier in the list, `initialize` raises the
unguarded `int()`'s `ValueError` and the well-formed `telescope_1` entry is
never merged at all. -/
theorem c9_counterexample_discovery_drops_direct :
    initializeDeviceManager envDirect managerInitState = .ok c9AfterInit ∧
    (lookupAssoc c9AfterInit.available "telescope_1").isSome = true ∧
    lookupAssoc (discover_devices envDirect c9AfterInit).1.available "telescope_1" =
      none ∧
    initializeDeviceManager envDirectBad managerInitState =
      .error ("invalid literal for int() with base 10: xx", managerInitState) := by
  exact ⟨by rfl, by rfl, by rfl, by rfl⟩

/-- Presence of a key survives an (unrelated or overwriting) table update. -/
theorem lookup_updAssoc_isSome_of {α : Type} (m : List (String × α)) (k k' : String)
    (v : α) (h : (lookupAssoc m k').isSome = true) :
    (lookupAssoc (updAssoc m k v) k').isSome = true := by
  induction m with
  | nil => simp [lookupAssoc] at h
  | cons hd tl ih =>
      obtain ⟨k0, v0⟩ := hd
      by_cases hk' : k0 = k'
      · subst hk'
        by_cases hk : k0 = k
        · subst hk
          simp [updAssoc, lookupAssoc]
        · simp [updAssoc, lookupAssoc, hk]
      · simp only [lookupAssoc, if_neg hk'] at h
        by_cases hk : k0 = k
        · subst hk
          simp [updAssoc, lookupAssoc, hk', h]
        · simp [updAssoc, lookupAssoc, hk, hk', ih h]

/-- Presence of a key in the available table survives any fold of
presence-preserving state updates. -/
theorem foldl_avail_preserved {β : Type} (f : MgrState → β → MgrState)
    (hpres : ∀ s e k, (lookupAssoc s.available k).isSome = true →
        (lookupAssoc (f s e).available k).isSome = true)
    (l : List β) : ∀ (s : MgrState) (k : String),
      (lookupAssoc s.available k).isSome = true →
      (lookupAssoc (l.foldl f s).available k).isSome = true := by
  induction l with
  | nil => intro s k h; exact h
  | cons y ys ih => intro s k h; exact ih _ _ (hpres s y k h)

/-- With the probes silent, the known-device strategy contributes nothing. -/
theorem check_known_devices_none (env : Env)
    (hkp : ∀ h p, env.knownProbe h p = none) : check_known_devices env = [] := by
  unfold check_known_devices
  generalize env.knownDevices = l
  induction l with
  | nil => rfl
  | cons x xs ih => simp_all [hkp]

/-- With no simulator reachable, the simulator strategy contributes nothing. -/
theorem check_simulators_none (env : Env)
    (hsim : ∀ h p, env.simReachable h p = false) : check_simulators env = [] := by
  unfold check_simulators
  generalize env.simulatorDevices = l
  induction l with
  | nil => rfl
  | cons x xs ih => simp_all [hsim]

/-- With every strategy empty, a discovery pass leaves the available table
empty (it cleared it and re-added nothing) and returns no devices. -/
theorem discover_devices_empty (env : Env) (st : MgrState)
    (hudp : env.udpFound = []) (hkp : ∀ h p, env.knownProbe h p = none)
    (hsim : ∀ h p, env.simReachable h p = false) :
    discover_devices env st = ({ st with available := [] }, []) := by
  unfold discover_devices
  rw [hudp, check_known_devices_none env hkp, check_simulators_none env hsim]
  by_cases hsk : pyLower env.skipUdpVar = "true" <;> simp [hsk]

/-- A completed direct-device loop preserves presence of any key. -/
theorem prepopulate_direct_preserved (specs : List String) :
    ∀ (st st1 : MgrState) (k : String),
      prepopulate_direct_devices specs st = .ok st1 →
      (lookupAssoc st.available k).isSome = true →
      (lookupAssoc st1.available k).isSome = true := by
  induction specs with
  | nil =>
      intro st st1 k h hk
      simp only [prepopulate_direct_devices] at h
      cases h
      exact hk
  | cons x xs ih =>
      intro st st1 k h hk
      simp only [prepopulate_direct_devices] at h
      by_cases hlen : (pySplit (pyStrip x) ':').length ≥ 4
      · rw [if_pos hlen] at h
        cases hp : pyToNat? ((pySplit (pyStrip x) ':').getD 2 "") with
        | none => simp only [hp] at h; simp at h
        | some p =>
            simp only [hp] at h
            exact ih _ _ _ h (lookup_updAssoc_isSome_of _ _ _ _ hk)
      · rw [if_neg hlen] at h
        exact ih _ _ _ h hk

/-- Every well-formed spec (at least four fields, parsable port) processed by
a direct-device loop that completes without a `ValueError` leaves its device
id present in the available table. -/
theorem prepopulate_direct_member (specs : List String) :
    ∀ (st st1 : MgrState) (device_spec : String),
      prepopulate_direct_devices specs st = .ok st1 →
      device_spec ∈ specs →
      (pySplit (pyStrip device_spec) ':').length ≥ 4 →
      (pyToNat? ((pySplit (pyStrip device_spec) ':').getD 2 "")).isSome = true →
      (lookupAssoc st1.available ((pySplit (pyStrip device_spec) ':').getD 0 "")).isSome
        = true := by
  induction specs with
  | nil => intro st st1 ds h hmem hlen hport; cases hmem
  | cons x xs ih =>
      intro st st1 ds h hmem hlen hport
      simp only [prepopulate_direct_devices] at h
      cases hmem with
      | head =>
          rw [if_pos hlen] at h
          cases hp : pyToNat? ((pySplit (pyStrip x) ':').getD 2 "") with
          | none => rw [hp] at hport; simp at hport
          | some p =>
              simp only [hp] at h
              refine prepopulate_direct_preserved xs _ _ _ h ?_
              simp [lookup_updAssoc_self]
      | tail _ hmem' =>
          by_cases hlenx : (pySplit (pyStrip x) ':').length ≥ 4
          · rw [if_pos hlenx] at h
            cases hp : pyToNat? ((pySplit (pyStrip x) ':').getD 2 "") with
            | none => simp only [hp] at h; simp at h
            | some p =>
                simp only [hp] at h
                exact ih _ _ _ h hmem' hlen hport
          · rw [if_neg hlenx] at h
            exact ih _ _ _ h hmem' hlen hport

/-- C9 as amended: the ad hoc direct-connection environment list is merged at
*initialization* time, not by discovery, and only as far as the unguarded
`int(parts[2])` allows: when `initialize` returns without raising, every
well-formed declared entry (at least four colon-separated fields, parsable
port) has its device id present in the available table; a malformed port
instead raises `ValueError` out of `initialize` (see the counterexample).  A
*discovery pass* consults only the UDP/known-host/simulator strategies: with
those yielding nothing, the table after `discover` is empty no matter what
the direct list declares — even starting from the freshly initialized state. -/
theorem c9_direct_devices_merged_at_startup (env : Env) (st st' : MgrState)
    (device_spec : String)
    (hinit : initializeDeviceManager env st = .ok st')
    (hmem : device_spec ∈ pySplit env.directDevicesVar ',')
    (hlen : (pySplit (pyStrip device_spec) ':').length ≥ 4)
    (hport : (pyToNat? ((pySplit (pyStrip device_spec) ':').getD 2 "")).isSome = true)
    (hudp : env.udpFound = []) (hkp : ∀ h p, env.knownProbe h p = none)
    (hsim : ∀ h p, env.simReachable h p = false) :
    (lookupAssoc st'.available ((pySplit (pyStrip device_spec) ':').getD 0 "")).isSome
      = true ∧
    (discover_devices env st').1.available = [] ∧
    (discover_devices env st').2 = [] := by
  refine ⟨?_, ?_, ?_⟩
  · simp only [initializeDeviceManager, prepopulate_known_devices] at hinit
    by_cases hvar : env.directDevicesVar = ""
    · exfalso
      rw [hvar] at hmem
      rw [show pySplit "" ',' = [""] from rfl] at hmem
      simp at hmem
      subst hmem
      exact absurd hlen (by decide)
    · rw [if_neg hvar] at hinit
      cases hloop : prepopulate_direct_devices (pySplit env.directDevicesVar ',')
          (env.storedDevices.foldl
            (fun s device => { s with available := updAssoc s.available device.id device })
            st) with
      | error e => simp [hloop] at hinit
      | ok st1 =>
          simp only [hloop] at hinit
          have hpres := prepopulate_direct_member (pySplit env.directDevicesVar ',')
            _ _ device_spec hloop hmem hlen hport
          by_cases hpk : pyLower env.prepopulateKnownVar = "true"
          · rw [if_pos hpk] at hinit
            injection hinit with h2
            subst h2
            refine foldl_avail_preserved _ ?_ _ _ _ hpres
            intro s e k hk
            exact lookup_updAssoc_isSome_of _ _ _ _ hk
          · rw [if_neg hpk] at hinit
            injection hinit with h2
            subst h2
            exact hpres
  · rw [discover_devices_empty env st' hudp hkp hsim]
  · rw [discover_devices_empty env st' hudp hkp hsim]

/-- C9 witness: the declared well-formed `telescope_1` spec is present after
the successful initialization, while the silent-network discovery pass
starting from that very state yields an empty table. -/
theorem c9_direct_devices_merged_at_startup_witness :
    (lookupAssoc c9AfterInit.available
      ((pySplit (pyStrip "telescope_1:192.168.1.100:5555:Seestar S50") ':').getD 0
        "")).isSome = true ∧
    (discover_devices envDirect c9AfterInit).1.available = [] ∧
    (discover_devices envDirect c9AfterInit).2 = [] :=
  c9_direct_devices_merged_at_startup envDirect managerInitState c9AfterInit
    "telescope_1:192.168.1.100:5555:Seestar S50" (by rfl) (by decide) (by decide)
    (by decide) rfl (fun _ _ => rfl) (fun _ _ => rfl)

/-- C10: `DeviceManager()` always returns the singleton object — a first call
allocates it, a later call returns the object with the same identity — but
Python runs `__init__` on every call, so the shared instance comes back with
freshly emptied available/connected tables and event-callback registry,
discarding whatever state the first reference had accumulated. -/
theorem c10_singleton_reinitialized (prev : MgrObj) (freshId freshId2 : Nat) :
    DeviceManager_call none freshId =
      (some ⟨freshId, managerInitState⟩, ⟨freshId, managerInitState⟩) ∧
    DeviceManager_call (some prev) freshId2 =
      (some ⟨prev.objId, managerInitState⟩, ⟨prev.objId, managerInitState⟩) ∧
    managerInitState.available = [] ∧
    managerInitState.connected = [] ∧
    managerInitState.event_callbacks = [] := by
  exact ⟨by rfl, by rfl, by rfl, by rfl, by rfl⟩
